import Mathlib

/-!
Shallow embedding of the Scrypto blueprint `nft_sale` (repository file
`src/lib.rs`) and verification of its specification.

Modelling conventions, line by line against the source:

* Resource addresses are opaque naturals (`ResourceAddress`).
* Scrypto `Decimal` is an exact fixed-point amount type; amounts are modelled
  as rationals, which is faithful for the arithmetic the component performs
  (`price * count` with an integer `count`, bucket subtraction, vault
  addition: no rounding anywhere).
* A fungible bucket or vault is a resource address plus an amount; a
  non-fungible bucket or vault is a resource address plus the list of held
  ids.  `NonFungibleVault::take(n)` removes an engine-chosen subset of `n`
  units; it is modelled as the first `n` ids of the list.
* Every `assert!` in the source, and every engine-level vault/bucket failure,
  aborts the whole transaction.  Methods that can abort are functions into
  `Except Err`: an `Except.error` result carries no successor state, so an
  aborted call leaves both pools and every other field untouched by
  construction.  The error constructors carry the names the specification
  gives to each failure.
* Method authorization (`enable_method_auth!`) is host-level and outside the
  custody core being verified; the embedded methods are the method bodies.
-/

abbrev ResourceAddress := Nat

abbrev Decimal := ℚ

/-- `ResourceType` as far as the source inspects it: the constructor asserts
the payment resource is not `ResourceType::NonFungible { .. }`. -/
inductive ResourceType where
  | Fungible
  | NonFungible
  deriving DecidableEq

/-- The failure kinds of the component, named as in the specification.  Each
`assert!` of the source maps to one of them; `InsufficientBalanceError` is the
engine failure of a vault or bucket `take` exceeding the holdings, and
`InvalidTakeAmount` the engine failure of a `take` of a negative amount. -/
inductive Err where
  | SaleClosedError
  | WrongTokenError
  | QuantityLimitError
  | InsufficientPaymentError
  | InsufficientBalanceError
  | InvalidPriceError
  | NonFungiblePaymentRejected
  | NothingToWithdrawError
  | InvalidTakeAmount
  deriving DecidableEq

/-- A bucket of a fungible resource: amount-addressed, no per-unit identity. -/
structure FungBucket where
  resource : ResourceAddress
  amount : Decimal
  deriving DecidableEq

/-- A bucket of non-fungible units, identified individually. -/
structure NFBucket where
  resource : ResourceAddress
  ids : List Nat
  deriving DecidableEq

/-- The payment vault (`xrd_vault` in the source). -/
structure FungVault where
  resource : ResourceAddress
  amount : Decimal
  deriving DecidableEq

/-- The item vault (`nft_vault` in the source). -/
structure NFVault where
  resource : ResourceAddress
  ids : List Nat
  deriving DecidableEq

/-- `NonFungibleVault::take(n)`: fails with `InsufficientBalanceError` when the
vault holds fewer than `n` units; otherwise removes an engine-chosen subset of
`n` units, modelled as the first `n` ids. -/
def NFVault.take (v : NFVault) (n : Nat) : Except Err (NFBucket × NFVault) :=
  if n ≤ v.ids.length then
    .ok (⟨v.resource, v.ids.take n⟩, ⟨v.resource, v.ids.drop n⟩)
  else
    .error .InsufficientBalanceError

/-- `NonFungibleVault::put(bucket)` as the source's `add_nfts_to_vault` calls
it: the deposited ids join the pool.  The method body performs no check of the
bucket's resource kind. -/
def NFVault.put (v : NFVault) (b : NFBucket) : NFVault :=
  ⟨v.resource, v.ids ++ b.ids⟩

/-- `Bucket::take(amount)` on the payment bucket: fails on a negative requested
amount, fails with `InsufficientBalanceError` when the bucket holds less than
requested, and otherwise splits the bucket into the taken part and the rest. -/
def FungBucket.take (b : FungBucket) (amt : Decimal) :
    Except Err (FungBucket × FungBucket) :=
  if amt < 0 then .error .InvalidTakeAmount
  else if b.amount < amt then .error .InsufficientBalanceError
  else .ok (⟨b.resource, amt⟩, ⟨b.resource, b.amount - amt⟩)

/-- `Vault::put(bucket)` on the fungible payment vault. -/
def FungVault.put (v : FungVault) (b : FungBucket) : FungVault :=
  ⟨v.resource, v.amount + b.amount⟩

/-- `Vault::is_empty` on the payment vault: no amount is held. -/
def FungVault.is_empty (v : FungVault) : Bool :=
  decide (v.amount = 0)

/-- The component state `struct NFTSale`, field for field. -/
structure NFTSale where
  nft_vault : NFVault
  xrd_vault : FungVault
  accepted_payment_token : ResourceAddress
  price : Decimal
  admin_badge_address : ResourceAddress
  sale_allowed : Bool
  deriving DecidableEq

/-- `NFTSale::instantiate_nft_sale`.  The two asserts of the source, in source
order: the payment resource must not be non-fungible, and the price must not be
negative.  Badge minting and globalization are host-level; the embedding keeps
the freshly minted admin badge address as the parameter `admin_badge_address`
and returns the initial component state, whose vaults start empty and whose
`sale_allowed` starts `false`. -/
def instantiate_nft_sale (nft_resource_address : ResourceAddress)
    (accepted_payment_token : ResourceAddress)
    (payment_resource_type : ResourceType)
    (price : Decimal)
    (admin_badge_address : ResourceAddress) : Except Err NFTSale :=
  if payment_resource_type = .NonFungible then
    .error .NonFungiblePaymentRejected
  else if price < 0 then
    .error .InvalidPriceError
  else
    .ok { nft_vault := ⟨nft_resource_address, []⟩
          xrd_vault := ⟨accepted_payment_token, 0⟩
          accepted_payment_token := accepted_payment_token
          price := price
          admin_badge_address := admin_badge_address
          sale_allowed := false }

/-- `NFTSale::add_nfts_to_vault`: puts the whole deposit bucket into the item
vault, with no precondition of its own. -/
def NFTSale.add_nfts_to_vault (s : NFTSale) (nft_deposit_bucket : NFBucket) :
    NFTSale :=
  { s with nft_vault := s.nft_vault.put nft_deposit_bucket }

/-- `NFTSale::start_sale`. -/
def NFTSale.start_sale (s : NFTSale) : NFTSale :=
  { s with sale_allowed := true }

/-- `NFTSale::end_sale`. -/
def NFTSale.end_sale (s : NFTSale) : NFTSale :=
  { s with sale_allowed := false }

/-- `NFTSale::buy`, statement for statement: the four asserts in source order
(sale allowed, payment resource, quantity cap, payment amount), then the item
withdrawal `nft_vault.take(number_of_nfts)`, then the payment split
`payment.take(price * number_of_nfts)`, then the deposit into `xrd_vault`,
returning the remaining payment as change together with the items. -/
def NFTSale.buy (s : NFTSale) (payment : FungBucket) (number_of_nfts : Nat) :
    Except Err ((FungBucket × NFBucket) × NFTSale) :=
  if ¬ s.sale_allowed then
    .error .SaleClosedError
  else if payment.resource ≠ s.accepted_payment_token then
    .error .WrongTokenError
  else if ¬ number_of_nfts ≤ 10 then
    .error .QuantityLimitError
  else if ¬ s.price * number_of_nfts ≤ payment.amount then
    .error .InsufficientPaymentError
  else
    match s.nft_vault.take number_of_nfts with
    | .error e => .error e
    | .ok (nft, nft_vault1) =>
      match payment.take (s.price * number_of_nfts) with
      | .error e => .error e
      | .ok (revenue, payment1) =>
        .ok ((payment1, nft),
             { s with nft_vault := nft_vault1,
                      xrd_vault := s.xrd_vault.put revenue })

/-- `NFTSale::is_sold`: whether the payment vault is non-empty. -/
def NFTSale.is_sold (s : NFTSale) : Bool :=
  ! s.xrd_vault.is_empty

/-- `NFTSale::withdraw_profits`: asserts `is_sold`, then `take_all` on the
payment vault — the whole balance is returned and the vault is left empty. -/
def NFTSale.withdraw_profits (s : NFTSale) : Except Err (FungBucket × NFTSale) :=
  if ¬ s.is_sold then
    .error .NothingToWithdrawError
  else
    .ok (⟨s.xrd_vault.resource, s.xrd_vault.amount⟩,
         { s with xrd_vault := ⟨s.xrd_vault.resource, 0⟩ })

/-- `NFTSale::change_price`: asserts the new price is not negative, then sets
it. -/
def NFTSale.change_price (s : NFTSale) (price : Decimal) : Except Err NFTSale :=
  if price < 0 then
    .error .InvalidPriceError
  else
    .ok { s with price := price }

/-- `NFTSale::price`: the accepted payment resource and the unit price.  (Named
`price_query` because the state field already carries the source name
`price`.) -/
def NFTSale.price_query (s : NFTSale) : ResourceAddress × Decimal :=
  (s.accepted_payment_token, s.price)

/-- The states a component instance can be in: the initial state of a
successful `instantiate_nft_sale`, closed under every method of the component
(for the fallible methods, under their successful outcomes — a failed call
produces no state). -/
inductive Reachable : NFTSale → Prop where
  | instantiated : ∀ {a b : ResourceAddress} {ty : ResourceType} {p : Decimal}
      {adm : ResourceAddress} {s : NFTSale},
      instantiate_nft_sale a b ty p adm = .ok s → Reachable s
  | started : ∀ {s : NFTSale}, Reachable s → Reachable s.start_sale
  | ended : ∀ {s : NFTSale}, Reachable s → Reachable s.end_sale
  | added : ∀ {s : NFTSale} {b : NFBucket}, Reachable s →
      Reachable (s.add_nfts_to_vault b)
  | price_changed : ∀ {s : NFTSale} {p : Decimal} {s1 : NFTSale}, Reachable s →
      s.change_price p = .ok s1 → Reachable s1
  | bought : ∀ {s : NFTSale} {pay : FungBucket} {n : Nat}
      {r : FungBucket × NFBucket} {s1 : NFTSale}, Reachable s →
      s.buy pay n = .ok (r, s1) → Reachable s1
  | withdrawn : ∀ {s : NFTSale} {b : FungBucket} {s1 : NFTSale}, Reachable s →
      s.withdraw_profits = .ok (b, s1) → Reachable s1

/-- A concrete sale state used to instantiate the theorems: item vault of
resource 1 holding five ids, empty payment vault of resource 2, unit price 10,
sale open. -/
def demoState : NFTSale :=
  { nft_vault := ⟨1, [10, 11, 12, 13, 14]⟩
    xrd_vault := ⟨2, 0⟩
    accepted_payment_token := 2
    price := 10
    admin_badge_address := 3
    sale_allowed := true }

/-- `demoState` with the sale not yet opened. -/
def demoClosed : NFTSale :=
  { demoState with sale_allowed := false }

/-- `demoState` with 20 tokens already collected in the payment vault. -/
def demoSold : NFTSale :=
  { demoState with xrd_vault := ⟨2, 20⟩ }

/-- Helper: a successful `instantiate_nft_sale` implies a non-negative price
and a closed sale in the produced state, with the price as passed. -/
theorem instantiate_ok_inv {a b : ResourceAddress} {ty : ResourceType}
    {p : Decimal} {adm : ResourceAddress} {s : NFTSale}
    (h : instantiate_nft_sale a b ty p adm = .ok s) :
    s.price = p ∧ 0 ≤ p ∧ s.sale_allowed = false := by
  unfold instantiate_nft_sale at h
  split at h
  · exact (Except.noConfusion h)
  · split at h
    · exact (Except.noConfusion h)
    · next hp =>
        injection h with h2
        subst h2
        exact ⟨rfl, not_lt.mp hp, rfl⟩

/-- Helper: a successful `change_price` implies a non-negative new price and
that the produced state is the old one with only the price replaced. -/
theorem change_price_ok_inv {s : NFTSale} {p : Decimal} {s1 : NFTSale}
    (h : s.change_price p = .ok s1) :
    0 ≤ p ∧ s1 = { s with price := p } := by
  unfold NFTSale.change_price at h
  split at h
  · exact (Except.noConfusion h)
  · next hp =>
      injection h with h2
      exact ⟨not_lt.mp hp, h2.symm⟩

/-- Helper: a successful `buy` leaves the price (and the configuration fields)
unchanged. -/
theorem buy_ok_price {s : NFTSale} {pay : FungBucket} {n : Nat}
    {r : FungBucket × NFBucket} {s1 : NFTSale}
    (h : s.buy pay n = .ok (r, s1)) : s1.price = s.price := by
  unfold NFTSale.buy at h
  split at h
  · exact (Except.noConfusion h)
  split at h
  · exact (Except.noConfusion h)
  split at h
  · exact (Except.noConfusion h)
  split at h
  · exact (Except.noConfusion h)
  split at h
  · exact (Except.noConfusion h)
  · split at h
    · exact (Except.noConfusion h)
    · injection h with h2
      have h3 := congrArg Prod.snd h2
      simp only at h3
      subst h3
      rfl

/-- Helper: a successful `withdraw_profits` leaves the price unchanged. -/
theorem withdraw_profits_ok_price {s : NFTSale} {b : FungBucket} {s1 : NFTSale}
    (h : s.withdraw_profits = .ok (b, s1)) : s1.price = s.price := by
  unfold NFTSale.withdraw_profits at h
  split at h
  · exact (Except.noConfusion h)
  · injection h with h2
    have h3 := congrArg Prod.snd h2
    simp only at h3
    subst h3
    rfl

/-- C8: `add_nfts_to_vault` deposits the whole caller-supplied bucket into the
item pool unconditionally — for every state and every bucket, with no
precondition and in particular no comparison of `nft_deposit_bucket.resource`
against the item pool's resource, the result is the same state with the
bucket's ids appended to the pool. -/
theorem add_nfts_to_vault_unconditional (s : NFTSale) (b : NFBucket) :
    s.add_nfts_to_vault b =
      { s with nft_vault := ⟨s.nft_vault.resource, s.nft_vault.ids ++ b.ids⟩ } :=
  rfl

/-- C9: `price` returns the pair of the accepted payment resource and the unit
price, and `is_sold` returns `true` exactly when the payment pool is non-empty;
both are functions of the state alone (they produce no successor state and no
error), so they cannot fail and change no field. -/
theorem price_query_is_sold_pure (s : NFTSale) :
    s.price_query = (s.accepted_payment_token, s.price)
    ∧ (s.is_sold = true ↔ s.xrd_vault.amount ≠ 0) := by
  refine ⟨rfl, ?_⟩
  simp [NFTSale.is_sold, FungVault.is_empty]

/-- Witness for C9 at the concrete state `demoState`. -/
theorem price_query_is_sold_pure_witness :
    demoState.price_query = (demoState.accepted_payment_token, demoState.price)
    ∧ (demoState.is_sold = true ↔ demoState.xrd_vault.amount ≠ 0) :=
  price_query_is_sold_pure demoState

/-- C6: `change_price new_price` fails with `InvalidPriceError` for every
negative `new_price`, producing no successor state (so the price and every
other field stay as they were); for every non-negative `new_price` it succeeds
and the only changed field is `price`, set to `new_price`. -/
theorem change_price_spec (s : NFTSale) (p : Decimal) :
    (p < 0 → s.change_price p = .error .InvalidPriceError)
    ∧ (0 ≤ p → s.change_price p = .ok { s with price := p }) := by
  constructor
  · intro h
    simp [NFTSale.change_price, h]
  · intro h
    simp [NFTSale.change_price, not_lt.mpr h]

/-- Witness for C6: rejection of price −1 and acceptance of price 7 at the
concrete state `demoState`. -/
theorem change_price_spec_witness :
    demoState.change_price (-1) = .error .InvalidPriceError
    ∧ demoState.change_price 7 = .ok { demoState with price := 7 } :=
  ⟨(change_price_spec demoState (-1)).1 (by norm_num),
   (change_price_spec demoState 7).2 (by norm_num)⟩

/-- C4: `withdraw_profits` fails with `NothingToWithdrawError` when the payment
pool is empty, producing no successor state (everything stays as it was); when
the payment pool is non-empty it returns the entire prior balance of the pool
and the successor state differs only in the payment pool, which holds exactly
zero. -/
theorem withdraw_profits_spec (s : NFTSale) :
    (s.xrd_vault.amount = 0 →
        s.withdraw_profits = .error .NothingToWithdrawError)
    ∧ (s.xrd_vault.amount ≠ 0 →
        s.withdraw_profits =
          .ok (⟨s.xrd_vault.resource, s.xrd_vault.amount⟩,
               { s with xrd_vault := ⟨s.xrd_vault.resource, 0⟩ })) := by
  constructor
  · intro h
    simp [NFTSale.withdraw_profits, NFTSale.is_sold, FungVault.is_empty, h]
  · intro h
    simp [NFTSale.withdraw_profits, NFTSale.is_sold, FungVault.is_empty, h]

/-- Witness for C4: an empty payment pool (`demoState`) aborts, a pool holding
20 (`demoSold`) returns all 20 and is drained to zero. -/
theorem withdraw_profits_spec_witness :
    demoState.withdraw_profits = .error .NothingToWithdrawError
    ∧ demoSold.withdraw_profits =
        .ok (⟨2, 20⟩, { demoSold with xrd_vault := ⟨2, 0⟩ }) :=
  ⟨(withdraw_profits_spec demoState).1 rfl,
   (withdraw_profits_spec demoSold).2 (by norm_num [demoSold, demoState])⟩

/-- C2: the four explicit preconditions of `buy` are evaluated in source order
— sale open, payment resource, quantity cap, payment amount — and the first
failing one aborts the call with its own error; an `Except.error` result
carries no successor state, so the aborted call changes neither pool nor any
other field. -/
theorem buy_checks_in_order (s : NFTSale) (payment : FungBucket) (n : Nat) :
    (s.sale_allowed = false → s.buy payment n = .error .SaleClosedError)
    ∧ (s.sale_allowed = true →
        payment.resource ≠ s.accepted_payment_token →
        s.buy payment n = .error .WrongTokenError)
    ∧ (s.sale_allowed = true →
        payment.resource = s.accepted_payment_token →
        10 < n →
        s.buy payment n = .error .QuantityLimitError)
    ∧ (s.sale_allowed = true →
        payment.resource = s.accepted_payment_token →
        n ≤ 10 →
        payment.amount < s.price * n →
        s.buy payment n = .error .InsufficientPaymentError) := by
  refine ⟨?_, ?_, ?_, ?_⟩
  · intro h1
    simp [NFTSale.buy, h1]
  · intro h1 h2
    simp [NFTSale.buy, h1, h2]
  · intro h1 h2 h3
    simp [NFTSale.buy, h1, h2, Nat.not_le.mpr h3]
  · intro h1 h2 h3 h4
    simp [NFTSale.buy, h1, h2, h3, not_le.mpr h4]

/-- Witness for C2: each of the four checks failing first at a concrete call —
closed sale, wrong payment resource, 11 items, and a 5-token payment for a
10-token item. -/
theorem buy_checks_in_order_witness :
    demoClosed.buy ⟨2, 25⟩ 1 = .error .SaleClosedError
    ∧ demoState.buy ⟨7, 25⟩ 1 = .error .WrongTokenError
    ∧ demoState.buy ⟨2, 1000⟩ 11 = .error .QuantityLimitError
    ∧ demoState.buy ⟨2, 5⟩ 1 = .error .InsufficientPaymentError :=
  ⟨(buy_checks_in_order demoClosed ⟨2, 25⟩ 1).1 rfl,
   (buy_checks_in_order demoState ⟨7, 25⟩ 1).2.1 rfl (by norm_num [demoState]),
   (buy_checks_in_order demoState ⟨2, 1000⟩ 11).2.2.1 rfl rfl (by norm_num),
   (buy_checks_in_order demoState ⟨2, 5⟩ 1).2.2.2 rfl rfl (by norm_num)
     (by norm_num [demoState])⟩

/-- C7: construction rejects a non-fungible payment resource with
`NonFungiblePaymentRejected`; with a fungible payment resource it rejects a
negative initial price with `InvalidPriceError`; and when both preconditions
hold the component is created with `sale_allowed = false`. -/
theorem instantiate_spec (a b : ResourceAddress) (ty : ResourceType)
    (p : Decimal) (adm : ResourceAddress) :
    (ty = .NonFungible →
        instantiate_nft_sale a b ty p adm = .error .NonFungiblePaymentRejected)
    ∧ (ty = .Fungible → p < 0 →
        instantiate_nft_sale a b ty p adm = .error .InvalidPriceError)
    ∧ (ty = .Fungible → 0 ≤ p →
        ∃ s, instantiate_nft_sale a b ty p adm = .ok s
          ∧ s.sale_allowed = false) := by
  refine ⟨?_, ?_, ?_⟩
  · intro h
    subst h
    simp [instantiate_nft_sale]
  · intro h hp
    subst h
    simp [instantiate_nft_sale, hp]
  · intro h hp
    subst h
    refine ⟨{ nft_vault := ⟨a, []⟩
              xrd_vault := ⟨b, 0⟩
              accepted_payment_token := b
              price := p
              admin_badge_address := adm
              sale_allowed := false }, ?_, rfl⟩
    simp [instantiate_nft_sale, not_lt.mpr hp]

/-- Witness for C7: a non-fungible payment resource is rejected, a fungible one
with price −1 is rejected, and a fungible one with price 10 yields a component
whose sale is closed. -/
theorem instantiate_spec_witness :
    instantiate_nft_sale 1 2 .NonFungible 10 3 =
        .error .NonFungiblePaymentRejected
    ∧ instantiate_nft_sale 1 2 .Fungible (-1) 3 = .error .InvalidPriceError
    ∧ ∃ s, instantiate_nft_sale 1 2 .Fungible 10 3 = .ok s
        ∧ s.sale_allowed = false :=
  ⟨(instantiate_spec 1 2 .NonFungible 10 3).1 rfl,
   (instantiate_spec 1 2 .Fungible (-1) 3).2.1 rfl (by norm_num),
   (instantiate_spec 1 2 .Fungible 10 3).2.2 rfl (by norm_num)⟩

/-- C3: when the four explicit preconditions of `buy` all pass but the item
pool holds fewer than `count` units, the item-pool withdrawal fails with
`InsufficientBalanceError` and the whole call aborts with no successor state,
so no payment is moved into the payment pool.  The theorem needs no hypothesis
about the payment split at all (not even that the unit price is non-negative),
which is exactly the source ordering: the item withdrawal is evaluated before
the payment split. -/
theorem buy_insufficient_stock (s : NFTSale) (payment : FungBucket) (n : Nat)
    (hopen : s.sale_allowed = true)
    (hres : payment.resource = s.accepted_payment_token)
    (h10 : n ≤ 10)
    (hpay : s.price * n ≤ payment.amount)
    (hstock : s.nft_vault.ids.length < n) :
    s.buy payment n = .error .InsufficientBalanceError := by
  simp [NFTSale.buy, NFVault.take, hopen, hres, h10, hpay, Nat.not_le.mpr hstock]

/-- Witness for C3: buying 6 items with ample payment while the pool holds
only 5. -/
theorem buy_insufficient_stock_witness :
    demoState.buy ⟨2, 100⟩ 6 = .error .InsufficientBalanceError :=
  buy_insufficient_stock demoState ⟨2, 100⟩ 6 rfl rfl (by norm_num)
    (by norm_num [demoState]) (by norm_num [demoState])

/-- C1: with the sale open, a matching payment resource, `1 ≤ count ≤ 10`,
payment covering `unit_price * count`, at least `count` units in stock, and the
invariant `0 ≤ unit_price` (which C5 establishes for every reachable state),
`buy` succeeds: it returns change of exactly `payment.amount − price * count`
together with the `count` withdrawn items, removes exactly those `count` items
from the item pool, and deposits exactly `price * count` into the payment
pool, touching no other field. -/
theorem buy_success_effect (s : NFTSale) (payment : FungBucket) (n : Nat)
    (_hcount1 : 1 ≤ n) (hcount10 : n ≤ 10)
    (hopen : s.sale_allowed = true)
    (hres : payment.resource = s.accepted_payment_token)
    (hpay : s.price * n ≤ payment.amount)
    (hstock : n ≤ s.nft_vault.ids.length)
    (hprice : 0 ≤ s.price) :
    s.buy payment n =
      .ok ((⟨payment.resource, payment.amount - s.price * n⟩,
            ⟨s.nft_vault.resource, s.nft_vault.ids.take n⟩),
           { s with
              nft_vault := ⟨s.nft_vault.resource, s.nft_vault.ids.drop n⟩,
              xrd_vault := ⟨s.xrd_vault.resource,
                            s.xrd_vault.amount + s.price * n⟩ })
    ∧ (s.nft_vault.ids.take n).length = n
    ∧ (s.nft_vault.ids.drop n).length + n = s.nft_vault.ids.length := by
  have hcost : (0 : ℚ) ≤ s.price * n := mul_nonneg hprice (Nat.cast_nonneg n)
  refine ⟨?_, ?_, ?_⟩
  · simp [NFTSale.buy, NFVault.take, FungBucket.take, FungVault.put,
      hopen, hres, hcount10, hpay, hstock, not_lt.mpr hcost, not_lt.mpr hpay]
  · simp [List.length_take, Nat.min_eq_left hstock]
  · simp [List.length_drop, Nat.sub_add_cancel hstock]

/-- Witness for C1: buying 2 items at price 10 with a 25-token payment gives
5 tokens of change, the first 2 ids, a pool shrunk by 2 and a payment pool
grown by 20. -/
theorem buy_success_effect_witness :
    demoState.buy ⟨2, 25⟩ 2 =
      .ok ((⟨2, 25 - demoState.price * ((2 : Nat) : ℚ)⟩,
            ⟨demoState.nft_vault.resource, demoState.nft_vault.ids.take 2⟩),
           { demoState with
              nft_vault := ⟨demoState.nft_vault.resource,
                            demoState.nft_vault.ids.drop 2⟩,
              xrd_vault := ⟨demoState.xrd_vault.resource,
                            demoState.xrd_vault.amount
                              + demoState.price * ((2 : Nat) : ℚ)⟩ })
    ∧ (demoState.nft_vault.ids.take 2).length = 2
    ∧ (demoState.nft_vault.ids.drop 2).length + 2
        = demoState.nft_vault.ids.length :=
  buy_success_effect demoState ⟨2, 25⟩ 2 (by norm_num) (by norm_num) rfl rfl
    (by norm_num [demoState]) (by norm_num [demoState])
    (by norm_num [demoState])

/-- C10: with the sale open and a matching payment resource, `buy` with
`count = 0` succeeds for every (well-formed, hence non-negative) payment
amount: the quantity cap accepts 0 and the amount check degenerates to
`payment.amount ≥ 0`, so the call returns the whole payment as change together
with an empty item bucket and the state — both pools included — is exactly the
state before the call. -/
theorem buy_zero_spec (s : NFTSale) (payment : FungBucket)
    (hopen : s.sale_allowed = true)
    (hres : payment.resource = s.accepted_payment_token)
    (hamt : 0 ≤ payment.amount) :
    s.buy payment 0 = .ok ((payment, ⟨s.nft_vault.resource, []⟩), s) := by
  obtain ⟨pres, pamt⟩ := payment
  obtain ⟨⟨nres, nids⟩, ⟨xres, xamt⟩, apt, pr, adm, sa⟩ := s
  simp only at hopen hres hamt
  subst hopen
  subst hres
  simp [NFTSale.buy, NFVault.take, FungBucket.take, FungVault.put, hamt,
    not_lt.mpr hamt]

/-- Witness for C10: a 7-token payment buys 0 items, comes back whole, and the
state is untouched. -/
theorem buy_zero_spec_witness :
    demoState.buy ⟨2, 7⟩ 0 =
      .ok ((⟨2, 7⟩, ⟨demoState.nft_vault.resource, []⟩), demoState) :=
  buy_zero_spec demoState ⟨2, 7⟩ rfl rfl (by norm_num)

/-- The state produced by a concrete construction call, used to witness the
reachability invariant. -/
def initState : NFTSale :=
  { nft_vault := ⟨1, []⟩
    xrd_vault := ⟨2, 0⟩
    accepted_payment_token := 2
    price := 10
    admin_badge_address := 3
    sale_allowed := false }

/-- C5: the invariant `0 ≤ unit_price` holds in every reachable state of the
component: construction rejects a negative initial price, `change_price` — the
only method that writes the `price` field — rejects a negative new price, and
every other method leaves the field unchanged. -/
theorem reachable_price_nonneg (s : NFTSale) (h : Reachable s) :
    0 ≤ s.price := by
  induction h with
  | instantiated h0 =>
      obtain ⟨hp, hnn, -⟩ := instantiate_ok_inv h0
      rw [hp]
      exact hnn
  | started _ ih => exact ih
  | ended _ ih => exact ih
  | added _ ih => exact ih
  | price_changed _ h0 ih =>
      obtain ⟨hnn, rfl⟩ := change_price_ok_inv h0
      exact hnn
  | bought _ h0 ih =>
      rw [buy_ok_price h0]
      exact ih
  | withdrawn _ h0 ih =>
      rw [withdraw_profits_ok_price h0]
      exact ih

/-- Witness for C5: the freshly constructed `initState` is reachable and its
price is non-negative. -/
theorem reachable_price_nonneg_witness : 0 ≤ initState.price :=
  reachable_price_nonneg initState
    (Reachable.instantiated
      (show instantiate_nft_sale 1 2 .Fungible 10 3 = .ok initState by
        simp [instantiate_nft_sale, initState]))
